import Mathlib

/-!
Verification development for the ThingsPanel performance-testing tool
(mqtt load generator).  The definitions below are a shallow embedding of
the Go sources: `mqtt/main.go` (publisher workers and the cycle loop),
`mqtt/config.go` together with the shipped `config.yml`, and the
monitor (`MonitorLogs`).  Machine counters are modelled as `Nat`/`Int`
(all of them are monotone in the program, so no wraparound arises) and
float statistics as rationals.
-/

namespace ThingsPanel

/-- The sensor payload published every cycle: struct `SensorData` in
`mqtt/main.go` has exactly the ten fields `Hum1` .. `Hum10`, each a
float; values are modelled as rationals. -/
structure SensorData where
  hum1 : ℚ
  hum2 : ℚ
  hum3 : ℚ
  hum4 : ℚ
  hum5 : ℚ
  hum6 : ℚ
  hum7 : ℚ
  hum8 : ℚ
  hum9 : ℚ
  hum10 : ℚ

/-- The list of data points carried by one serialized payload. -/
def SensorData.points (d : SensorData) : List ℚ :=
  [d.hum1, d.hum2, d.hum3, d.hum4, d.hum5, d.hum6, d.hum7, d.hum8, d.hum9, d.hum10]

/-- Number of data points in every published message: the payload struct
has ten fields, and the success branch of `connectAndPublish` adds the
literal `10` to `dataCount` (comment in the source: each message carries
ten data points). -/
def payloadPointCount : ℕ := 10

/-- The `data` section of the configuration (`mqtt/config.go`). -/
structure DataConfig where
  minValue : ℚ
  maxValue : ℚ
  dataPointCount : ℕ

/-- The `data` section of the repository's shipped `config.yml`:
`min_value: 1.0`, `max_value: 10.0`, `data_point_count: 1`. -/
def configYmlData : DataConfig := { minValue := 1, maxValue := 10, dataPointCount := 1 }

/-- The global atomic counters of `mqtt/main.go`: `successNum` (devices
that connected), `dataCount` (data points sent) and `exitCount`
(workers that returned).  This version of the publisher maintains no
message counter. -/
structure Counters where
  successNum : ℕ
  dataCount : ℕ
  exitCount : ℕ

/-- Effect of one publish attempt on the counters
(`mqtt/main.go`, the success/failure branches after `token.Wait()`):
on success `dataCount` grows by the hardcoded payload size 10; on
failure nothing changes. -/
def publishUpdate (c : Counters) (publishOk : Bool) : Counters :=
  if publishOk then { c with dataCount := c.dataCount + payloadPointCount } else c

/-- Control state of one worker inside the `for`/`select` loop of
`connectAndPublish`. -/
inductive WorkerState where
  | atSelect
  | waitingStart
  | publishing
  | exited
deriving DecidableEq

/-- One small step of the worker loop.  `ctxDone` is whether the shared
cancellation context has fired; `startClosed` is whether the channel the
worker is currently receiving from has been closed.  The Go `select` has
a `default` branch, so cancellation is consulted only at the top of the
loop (`atSelect`); once the worker has entered the `default` branch and
blocks on `<-startChan` (`waitingStart`), the receive is not
interruptible by the context. -/
def workerStep (ctxDone : Bool) (startClosed : Bool) : WorkerState → WorkerState
  | .atSelect => if ctxDone then .exited else .waitingStart
  | .waitingStart => if startClosed then .publishing else .waitingStart
  | .publishing => .atSelect
  | .exited => .exited

/-- Counter deltas contributed by one worker over its whole lifetime
(`connectAndPublish`): the top-of-function defers run on every return,
so `exitCount` grows by exactly 1 whether or not the connect succeeded,
and `successNum` grows by 1 exactly on connect success. -/
def workerDeltas (connectOk : Bool) : ℕ × ℕ :=
  (if connectOk then 1 else 0, 1)

/-- Totals of (`successNum`, `exitCount`) after every spawned worker has
returned, given the per-worker connect outcomes. -/
def runTotals (outcomes : List Bool) : ℕ × ℕ :=
  outcomes.foldr
    (fun ok acc => ((workerDeltas ok).1 + acc.1, (workerDeltas ok).2 + acc.2))
    (0, 0)

/-- Failure cases of `readFile` in `mqtt/main.go`: the file cannot be
opened or scanned, or it holds no non-empty line. -/
inductive ReadErr where
  | openFailed
  | emptyFile
deriving DecidableEq

/-- The identity source, `readFile` in `mqtt/main.go`.  The input is
`none` when opening or scanning the file fails, otherwise the list of
raw lines; empty lines are skipped and an empty result is an error. -/
def readFile (source : Option (List String)) : Except ReadErr (List String) :=
  match source with
  | none => .error .openFailed
  | some raw =>
      let lines := raw.filter (fun l => l ≠ "")
      if lines = [] then .error .emptyFile else .ok lines

/-- Whether `readFile` returned an error. -/
def readFileErrored (source : Option (List String)) : Bool :=
  match readFile source with
  | .error _ => true
  | .ok _ => false

/-- Number of workers spawned by `main`: zero when reading the token
file fails (`log.Fatalf` aborts before the spawn loop); otherwise the
configured client number clamped to the number of available tokens. -/
def spawnedWorkers (source : Option (List String)) (clientNumber : ℕ) : ℕ :=
  match readFile source with
  | .error _ => 0
  | .ok lines => min clientNumber lines.length

/-- Log lines of `main` relevant to early termination. -/
inductive LogEvent where
  | earlyTermination
  | cycleReport (cycle : ℕ)
  | finalReport
deriving DecidableEq

/-- Outcome of `main` from the point where `connectedDevices` is
sampled after the settle wait. -/
structure RunOutcome where
  broadcasts : ℕ
  cancelled : Bool
  drained : Bool
  events : List LogEvent
deriving DecidableEq

/-- Control flow of `main` after the settle wait (`mqtt/main.go`): if
the sampled `successNum` is zero, `main` logs an early-termination line,
cancels the context, waits on the `WaitGroup` and returns — the cycle
loop never runs, so no `close(startChan)` broadcast happens.  Otherwise
the loop fires one broadcast per cycle, logging each one, then cancels
and drains before the final report. -/
def mainAfterSettle (connectedDevices : ℕ) (cycleCount : ℕ) : RunOutcome :=
  if connectedDevices = 0 then
    { broadcasts := 0, cancelled := true, drained := true,
      events := [LogEvent.earlyTermination] }
  else
    { broadcasts := cycleCount, cancelled := true, drained := true,
      events := (List.range cycleCount).map (fun k => LogEvent.cycleReport (k + 1))
        ++ [LogEvent.finalReport] }

/-- Instant (in abstract time units) at which the cycle loop fires its
k-th broadcast (`mqtt/main.go` cycle loop): each iteration closes the
channel, then unconditionally sleeps the fixed interval and does its
per-cycle processing (`delay k`), so the next broadcast happens one full
interval plus that delay after the previous one.  No target time is
computed anywhere in the loop. -/
def broadcastTime (interval : ℕ) (delay : ℕ → ℕ) : ℕ → ℕ
  | 0 => 0
  | k + 1 => broadcastTime interval delay k + interval + delay k

/-- Modelled from the spec: the drift-free schedule the spec describes
for the Cycle Coordinator, where each target send time is the previous
target plus the fixed interval (never "now" plus the interval), so the
k-th target is k times the interval after the start. -/
def specTargetTime (interval : ℕ) (k : ℕ) : ℕ := k * interval

/-- One publish attempt in a run: which worker, in which cycle, and
whether `token.Error()` was nil. -/
structure PublishEvent where
  worker : ℕ
  cycle : ℕ
  publishOk : Bool
deriving DecidableEq

/-- Number of successful publishes in a run. -/
def successfulPublishes (run : List PublishEvent) : ℕ :=
  (run.filter (fun e => e.publishOk)).length

/-- Final `dataCount` of a run: every successful publish adds the fixed
payload size (`publishUpdate`). -/
def sentPoints (run : List PublishEvent) : ℕ :=
  payloadPointCount * successfulPublishes run

/-- Modelled from the spec: the message counter `sentMessageCount`
(`msgCount` in the evolved monitor, whose incrementing publisher is not
among the sources), which grows by exactly 1 on every successful
publish. -/
def sentMessages (run : List PublishEvent) : ℕ :=
  successfulPublishes run

/-- State of the monitor (`MonitorLogs`): the baseline captured once at
startup (`initialCount`, `initialSentCount`) and the rolling snapshot
updated at the end of each successful tick (`lastDBCount`,
`lastSentCount`). -/
structure MonitorState where
  initialCount : ℤ
  initialSentCount : ℕ
  lastDBCount : ℤ
  lastSentCount : ℕ
deriving DecidableEq

/-- Capping used for the write success rates in `MonitorLogs`: values
above 100 display as 100. -/
def capRate (r : ℚ) : ℚ := if r > 100 then 100 else r

/-- Interval write success rate of `MonitorLogs` (`successRate`):
computed and reported only when the sent-point delta is positive, as
the stored delta over the sent delta times 100, capped at 100. -/
def intervalSuccessRate (dbDiff : ℤ) (sentDiff : ℕ) : Option ℚ :=
  if 0 < sentDiff then some (capRate ((dbDiff : ℚ) / (sentDiff : ℚ) * 100)) else none

/-- Cumulative write success rate of `MonitorLogs` (`totalSuccessRate`):
computed and reported only when the total sent count is positive, as
the stored growth since the baseline over the total sent count times
100, capped at 100. -/
def cumulativeSuccessRate (totalDB : ℤ) (currentSent : ℕ) : Option ℚ :=
  if 0 < currentSent then some (capRate ((totalDB : ℚ) / (currentSent : ℚ) * 100)) else none

/-- Statistics printed by one successful monitor tick. -/
structure MonitorReport where
  sentDiff : ℕ
  dbDiff : ℤ
  sentRate : ℚ
  dbRate : ℚ
  successRate : Option ℚ
  totalDB : ℤ
  totalSuccessRate : Option ℚ

/-- The statistics block one successful tick of `MonitorLogs` computes
from the state, the freshly read sent counter and the freshly queried
stored count; interval rates divide the interval deltas by the single
configured log interval. -/
def tickReport (st : MonitorState) (currentSent : ℕ) (currentDB : ℤ)
    (logIntervalSec : ℚ) : MonitorReport :=
  { sentDiff := currentSent - st.lastSentCount
    dbDiff := currentDB - st.lastDBCount
    sentRate := ((currentSent - st.lastSentCount : ℕ) : ℚ) / logIntervalSec
    dbRate := (((currentDB - st.lastDBCount : ℤ)) : ℚ) / logIntervalSec
    successRate := intervalSuccessRate (currentDB - st.lastDBCount) (currentSent - st.lastSentCount)
    totalDB := currentDB - st.initialCount
    totalSuccessRate := cumulativeSuccessRate (currentDB - st.initialCount) currentSent }

/-- One iteration of the monitor loop (`MonitorLogs`): the current sent
counter is read, then the store is queried; on query failure
(`dbQuery = none`) the iteration logs, `continue`s and changes nothing;
on success it emits the report and updates the rolling snapshot.  The
baseline fields are never written after capture. -/
def monitorTick (st : MonitorState) (currentSent : ℕ) (dbQuery : Option ℤ)
    (logIntervalSec : ℚ) : MonitorState × Option MonitorReport :=
  match dbQuery with
  | none => (st, none)
  | some currentDB =>
      ({ st with lastDBCount := currentDB, lastSentCount := currentSent },
        some (tickReport st currentSent currentDB logIntervalSec))

theorem payload_has_payloadPointCount_points (d : SensorData) :
    d.points.length = payloadPointCount := rfl

/-- C1: the claim says that a worker waiting for the next cycle signal
observes cancellation in preference to the cycle signal and exits within
a bounded grace period.  In the code the `select` has a `default`
branch, so a worker that is already blocked on `<-startChan` when the
context fires never observes cancellation: with the context done and
the channel never closed (exactly the situation after the final cycle's
channel replacement), the worker stays in `waitingStart` forever and
never reaches `exited`. -/
theorem c1_blocked_worker_never_exits (n : ℕ) :
    (workerStep true false)^[n] WorkerState.waitingStart = WorkerState.waitingStart := by
  induction n with
  | zero => rfl
  | succ n ih =>
    rw [Function.iterate_succ_apply]
    exact ih

/-- C2, counterexample: the claim says the next target send time is the
previous target plus the fixed interval, so drift does not accumulate.
The code computes no target: with interval 10 and a processing delay of
1 per cycle, the third broadcast fires at time 33, not at the spec's
target 30 — the drift is the accumulated sum of the delays. -/
theorem c2_no_target_time_counterexample :
    broadcastTime 10 (fun _ => 1) 3 = 33 ∧ specTargetTime 10 3 = 30 ∧
      broadcastTime 10 (fun _ => 1) 3 ≠ specTargetTime 10 3 := by
  refine ⟨rfl, rfl, ?_⟩
  decide

/-- C2, amended: the cycle loop sleeps the fixed interval
unconditionally after every broadcast, so the k-th broadcast fires at
k times the interval plus the sum of all previous cycles' processing
delays — cumulative drift relative to the fixed-interval schedule equals
that sum and grows with every overrun. -/
theorem c2_schedule_accumulates_delays (interval : ℕ) (delay : ℕ → ℕ) (k : ℕ) :
    broadcastTime interval delay k =
      specTargetTime interval k + ∑ i ∈ Finset.range k, delay i := by
  induction k with
  | zero => simp [broadcastTime, specTargetTime]
  | succ k ih =>
    rw [broadcastTime, ih, Finset.sum_range_succ, specTargetTime, specTargetTime]
    ring

/-- C3: evaluation of the publish-success branch at the failing input.
On success the code adds the hardcoded payload size 10 to `dataCount`
— not the configured points-per-message, which the repository's own
`config.yml` sets to 1 — and the counters carry no message count to
increment; on failure nothing changes. -/
theorem c3_publish_adds_fixed_ten (c : Counters) :
    publishUpdate c true = { c with dataCount := c.dataCount + 10 } ∧
      publishUpdate c false = c ∧
      payloadPointCount = 10 ∧
      configYmlData.dataPointCount = 1 := ⟨rfl, rfl, rfl, rfl⟩

/-- C6: when the connected-device count sampled after the settle wait is
zero, `main` logs the early-termination line, cancels every worker,
waits for their exit, and returns with zero cycle-barrier broadcasts. -/
theorem c6_zero_connected_early_termination (cycleCount : ℕ) :
    mainAfterSettle 0 cycleCount =
      { broadcasts := 0, cancelled := true, drained := true,
        events := [LogEvent.earlyTermination] } := rfl

/-- C9: every spawned worker adds exactly 1 to `exitCount` when it
returns, whether or not its connect succeeded, so after the final drain
`exitCount` equals the number of spawned workers, while `successNum`
(the connected count) is at most that number. -/
theorem c9_exit_count_equals_spawned (outcomes : List Bool) :
    (runTotals outcomes).2 = outcomes.length ∧
      (runTotals outcomes).1 ≤ outcomes.length := by
  induction outcomes with
  | nil => exact ⟨rfl, Nat.le_refl 0⟩
  | cons ok rest ih =>
    refine ⟨?_, ?_⟩
    · show (workerDeltas ok).2 + (runTotals rest).2 = rest.length + 1
      rw [ih.1]
      cases ok <;> simp [workerDeltas, Nat.add_comm]
    · show (workerDeltas ok).1 + (runTotals rest).1 ≤ rest.length + 1
      have h1 : (workerDeltas ok).1 ≤ 1 := by cases ok <;> simp [workerDeltas]
      have h2 := ih.2
      omega

/-- C4: in a run of n connected workers over c cycles in which each
worker publishes at most once per cycle (the barrier discipline) and
every publish carries the configured fixed point count (which forces
the configured points-per-message to equal the fixed payload size), the
message count is at most n times c, and the sent-point count equals the
message count times the configured points-per-message. -/
theorem c4_message_point_invariant (run : List PublishEvent) (n c ppm : ℕ)
    (hnodup : (run.map (fun e => (e.worker, e.cycle))).Nodup)
    (hbound : ∀ e ∈ run, e.worker < n ∧ e.cycle < c)
    (hfixed : ppm = payloadPointCount) :
    sentMessages run ≤ n * c ∧ sentPoints run = sentMessages run * ppm := by
  constructor
  · have h1 : sentMessages run ≤ run.length := List.length_filter_le _ _
    have h2 : run.length = (run.map (fun e => (e.worker, e.cycle))).length :=
      (List.length_map _ _).symm
    have hsub : (run.map (fun e => (e.worker, e.cycle))).toFinset ⊆
        Finset.range n ×ˢ Finset.range c := by
      intro p hp
      rw [List.mem_toFinset, List.mem_map] at hp
      obtain ⟨e, he, hpe⟩ := hp
      have hb := hbound e he
      rw [Finset.mem_product, Finset.mem_range, Finset.mem_range, ← hpe]
      exact hb
    have hcard : (run.map (fun e => (e.worker, e.cycle))).toFinset.card =
        (run.map (fun e => (e.worker, e.cycle))).length :=
      List.toFinset_card_of_nodup hnodup
    have hle := Finset.card_le_card hsub
    rw [hcard, Finset.card_product, Finset.card_range, Finset.card_range] at hle
    omega
  · rw [hfixed]
    exact Nat.mul_comm payloadPointCount (successfulPublishes run)

/-- C4, witness: a concrete run of two workers over one cycle, one
publish succeeding and one failing, with the configured
points-per-message equal to the fixed payload size 10. -/
theorem c4_message_point_invariant_witness :
    sentMessages [⟨0, 0, true⟩, ⟨1, 0, false⟩] ≤ 2 * 1 ∧
      sentPoints [⟨0, 0, true⟩, ⟨1, 0, false⟩] =
        sentMessages [⟨0, 0, true⟩, ⟨1, 0, false⟩] * 10 :=
  c4_message_point_invariant [⟨0, 0, true⟩, ⟨1, 0, false⟩] 2 1 10
    (by decide) (by decide) rfl

theorem capRate_bounds (x : ℚ) (hx : 0 ≤ x) : 0 ≤ capRate x ∧ capRate x ≤ 100 := by
  unfold capRate
  by_cases h : x > 100
  · rw [if_pos h]
    norm_num
  · rw [if_neg h]
    exact ⟨hx, le_of_not_lt h⟩

theorem intervalSuccessRate_bounded (dbDiff : ℤ) (sentDiff : ℕ) (h : 0 ≤ dbDiff) :
    ∀ r, intervalSuccessRate dbDiff sentDiff = some r → 0 ≤ r ∧ r ≤ 100 := by
  intro r hr
  unfold intervalSuccessRate at hr
  by_cases hs : 0 < sentDiff
  · rw [if_pos hs] at hr
    have hrr := Option.some.inj hr
    have h1 : (0 : ℚ) ≤ (dbDiff : ℚ) := by exact_mod_cast h
    have h2 : (0 : ℚ) ≤ (sentDiff : ℚ) := Nat.cast_nonneg _
    have h3 : (0 : ℚ) ≤ (dbDiff : ℚ) / (sentDiff : ℚ) * 100 :=
      mul_nonneg (div_nonneg h1 h2) (by norm_num)
    exact hrr ▸ capRate_bounds _ h3
  · rw [if_neg hs] at hr
    exact absurd hr (by simp)

theorem cumulativeSuccessRate_bounded (totalDB : ℤ) (currentSent : ℕ) (h : 0 ≤ totalDB) :
    ∀ r, cumulativeSuccessRate totalDB currentSent = some r → 0 ≤ r ∧ r ≤ 100 := by
  intro r hr
  unfold cumulativeSuccessRate at hr
  by_cases hs : 0 < currentSent
  · rw [if_pos hs] at hr
    have hrr := Option.some.inj hr
    have h1 : (0 : ℚ) ≤ (totalDB : ℚ) := by exact_mod_cast h
    have h2 : (0 : ℚ) ≤ (currentSent : ℚ) := Nat.cast_nonneg _
    have h3 : (0 : ℚ) ≤ (totalDB : ℚ) / (currentSent : ℚ) * 100 :=
      mul_nonneg (div_nonneg h1 h2) (by norm_num)
    exact hrr ▸ capRate_bounds _ h3
  · rw [if_neg hs] at hr
    exact absurd hr (by simp)

/-- C5: provided the stored-record count is monotone (never below the
rolling snapshot or the baseline), every success rate the monitor
reports — interval and cumulative — lies in the range 0 to 100: values
above 100 are capped, the deltas are non-negative so the rate is never
negative, and when the sent-point delta is zero the interval rate is not
computed at all (it is absent from the report). -/
theorem c5_success_rates_bounded (st : MonitorState) (currentSent : ℕ) (currentDB : ℤ)
    (iv : ℚ) (hlast : st.lastDBCount ≤ currentDB) (hinit : st.initialCount ≤ currentDB) :
    (∀ r, (tickReport st currentSent currentDB iv).successRate = some r →
      0 ≤ r ∧ r ≤ 100) ∧
    (∀ r, (tickReport st currentSent currentDB iv).totalSuccessRate = some r →
      0 ≤ r ∧ r ≤ 100) ∧
    ((tickReport st currentSent currentDB iv).sentDiff = 0 →
      (tickReport st currentSent currentDB iv).successRate = none) := by
  refine ⟨?_, ?_, ?_⟩
  · exact fun r hr =>
      intervalSuccessRate_bounded _ _ (sub_nonneg.mpr hlast) r hr
  · exact fun r hr =>
      cumulativeSuccessRate_bounded _ _ (sub_nonneg.mpr hinit) r hr
  · intro h0
    have h0' : currentSent - st.lastSentCount = 0 := h0
    show intervalSuccessRate (currentDB - st.lastDBCount) (currentSent - st.lastSentCount) = none
    unfold intervalSuccessRate
    rw [if_neg]
    omega

/-- C5, witness: a concrete successful tick — baseline and snapshot all
zero, 10 points sent, 5 records stored — whose interval rate evaluates
to 50, inside the proved bounds. -/
theorem c5_success_rates_bounded_witness : (0 : ℚ) ≤ 50 ∧ (50 : ℚ) ≤ 100 :=
  (c5_success_rates_bounded ⟨0, 0, 0, 0⟩ 10 5 1 (by decide) (by decide)).1 50
    (by norm_num [tickReport, intervalSuccessRate, capRate])

/-- C7: `readFile` returns an error exactly when the file is missing or
unreadable (`source = none`) or it contains no non-empty line; the
surviving lines are the non-empty input lines in their original order;
and on any read error `main` aborts fatally, spawning zero workers. -/
theorem c7_identity_source (source : Option (List String)) (clientNumber : ℕ) :
    (readFileErrored source = true ↔
      source = none ∨ (source.getD []).filter (fun l => l ≠ "") = []) ∧
    (readFileErrored source = true → spawnedWorkers source clientNumber = 0) ∧
    (∀ lines, readFile source = Except.ok lines →
      lines = (source.getD []).filter (fun l => l ≠ "")) := by
  cases source with
  | none =>
    refine ⟨⟨fun _ => Or.inl rfl, fun _ => rfl⟩, fun _ => rfl, fun lines h => ?_⟩
    simp [readFile] at h
  | some raw =>
    have hrf : readFile (some raw) =
        if raw.filter (fun l => l ≠ "") = [] then Except.error ReadErr.emptyFile
        else Except.ok (raw.filter (fun l => l ≠ "")) := rfl
    by_cases hf : raw.filter (fun l => l ≠ "") = []
    · rw [if_pos hf] at hrf
      have herr : readFileErrored (some raw) = true := by
        unfold readFileErrored
        rw [hrf]
      refine ⟨⟨fun _ => Or.inr hf, fun _ => herr⟩, fun _ => ?_, fun lines h => ?_⟩
      · unfold spawnedWorkers
        rw [hrf]
      · rw [hrf] at h
        exact Except.noConfusion h
    · rw [if_neg hf] at hrf
      have hok : readFileErrored (some raw) = false := by
        unfold readFileErrored
        rw [hrf]
      refine ⟨⟨fun he => ?_, fun he => ?_⟩, fun he => ?_, fun lines h => ?_⟩
      · rw [hok] at he
        exact Bool.noConfusion he
      · rcases he with he | he
        · exact Option.noConfusion he
        · exact absurd he hf
      · rw [hok] at he
        exact Bool.noConfusion he
      · rw [hrf] at h
        exact (Except.ok.inj h).symm

/-- C7, witness: a token file holding only empty lines errors out and no
worker is spawned. -/
theorem c7_identity_source_witness :
    spawnedWorkers (some ["", ""]) 3 = 0 :=
  (c7_identity_source (some ["", ""]) 3).2.1 (by decide)

/-- C8: a failed per-tick store query leaves the monitor state entirely
unchanged and emits no report, and the monitor continues: the very next
successful tick emits its report computed against the original state,
in particular its cumulative stored growth is measured from the
original baseline `initialCount`. -/
theorem c8_failed_tick_keeps_baseline (st : MonitorState) (s s2 : ℕ) (db2 : ℤ) (iv : ℚ) :
    monitorTick st s none iv = (st, none) ∧
    (monitorTick (monitorTick st s none iv).1 s2 (some db2) iv).2 =
      some (tickReport st s2 db2 iv) ∧
    (tickReport st s2 db2 iv).totalDB = db2 - st.initialCount :=
  ⟨rfl, rfl, rfl⟩

/-- C10: on a failed store query neither component of the rolling
snapshot is updated (no partial update), so a later successful tick's
interval deltas are measured from the pre-failure snapshot — spanning
all skipped intervals — while its interval rates still divide by the
single configured log-interval duration. -/
theorem c10_failed_tick_snapshot_unchanged (st : MonitorState) (s s2 : ℕ) (db2 : ℤ)
    (iv : ℚ) :
    (monitorTick st s none iv).1.lastDBCount = st.lastDBCount ∧
    (monitorTick st s none iv).1.lastSentCount = st.lastSentCount ∧
    (tickReport st s2 db2 iv).sentDiff = s2 - st.lastSentCount ∧
    (tickReport st s2 db2 iv).sentRate = ((s2 - st.lastSentCount : ℕ) : ℚ) / iv ∧
    (tickReport st s2 db2 iv).dbRate = ((db2 - st.lastDBCount : ℤ) : ℚ) / iv :=
  ⟨rfl, rfl, rfl, rfl, rfl⟩

end ThingsPanel
